import Mathlib

/-!
# Script bindings of the sprite class (`src/smc/src/script/objects/l_sprite.cpp`)

A shallow embedding of the Lua binding functions of `cSprite` and the
properties the specification states about them.

* Numbers of the scripting runtime are C doubles.  A finite double is a dyadic
  rational `num / 2^exp`; infinities and NaN are separate values.
* The conversions the source applies (`static_cast<float>`, `static_cast<int>`,
  `luaL_checkint`, `luaL_checklong`) are modelled with IEEE-754 binary32
  rounding (nearest, ties to even) and, for out-of-range conversions to an
  integer type, the value an x86-64 build produces.
* Sprites live on a heap addressed by natural numbers; a script handle
  (userdata) stores such an address, the sprite manager stores a list of them.
* A Lua string reaches the bindings as a `const char*`: where the source reads
  it as a C string, only the characters before the first NUL count.
-/

namespace SMC

/-! ## Numbers -/

/-- A C `double`: a finite dyadic rational `num / 2^exp`, an infinity or NaN.
The conversions below produce finite values in canonical form (`exp = 0` or
`num` odd); a whole number `n` is `finite n 0`. -/
inductive lua_Number where
  | finite (num : Int) (exp : Nat)
  | inf (negative : Bool)
  | nan
  deriving DecidableEq, Repr

/-- Bit length minus one of a positive natural number (0 for 0 and 1). -/
def log2Fuel : Nat → Nat → Nat
  | 0, _ => 0
  | fuel + 1, a => if a < 2 then 0 else 1 + log2Fuel fuel (a / 2)

/-- Quotient a/b rounded to the nearest integer, ties to the even one. -/
def roundNearestEven (a b : Nat) : Nat :=
  if 2 * (a % b) < b then a / b
  else if b < 2 * (a % b) then a / b + 1
  else if (a / b) % 2 = 0 then a / b else a / b + 1

/-- Canonical form of `num / 2^exp`: the exponent is 0 or the numerator is odd. -/
def normalize : Int → Nat → lua_Number
  | num, 0 => .finite num 0
  | num, k + 1 => if num % 2 = 0 then normalize (num / 2) k else .finite num (k + 1)

/-- The binary32 value nearest to `a / 2^exp` (a > 0), as mantissa and
exponent of its last place: the value is `mantissa * 2^ulp`.  Normal numbers
keep 24 significant bits, subnormal ones are multiples of `2^-149`. -/
def nearestBinary32 (a exp : Nat) : Nat × Int :=
  let e : Int := (log2Fuel a a : Int) - (exp : Int)
  let ulp : Int := max e (-126) - 23
  let shift : Int := (exp : Int) + ulp
  let m := if shift ≤ 0 then a * 2 ^ (-shift).toNat else roundNearestEven a (2 ^ shift.toNat)
  (m, ulp)

/-- Conversion `static_cast<float>(d)` of a double, the result again written
as a number: round to nearest binary32, ties to even; a magnitude of `2^128`
or more after rounding becomes an infinity. -/
def static_cast_float : lua_Number → lua_Number
  | .finite num exp =>
    if num = 0 then .finite 0 0
    else
      let r := nearestBinary32 num.natAbs exp
      let sign : Int := if num < 0 then -1 else 1
      if 0 ≤ r.2 then
        if 2 ^ 128 ≤ r.1 * 2 ^ r.2.toNat then .inf (decide (num < 0))
        else .finite (sign * (r.1 * 2 ^ r.2.toNat : Nat)) 0
      else normalize (sign * (r.1 : Int)) (-r.2).toNat
  | .inf negative => .inf negative
  | .nan => .nan

/-- Truncation toward zero of a finite number. -/
def truncate (num : Int) (exp : Nat) : Int :=
  if num < 0 then -((num.natAbs / 2 ^ exp : Nat) : Int) else ((num.natAbs / 2 ^ exp : Nat) : Int)

/-- Smallest value of `int`. -/
def INT_MIN : Int := -2147483648

/-- Largest value of `int`. -/
def INT_MAX : Int := 2147483647

/-- Conversion `static_cast<int>(d)`: truncation toward zero; a value that
does not fit (also an infinity or NaN) gives `INT_MIN`, the x86 result. -/
def static_cast_int : lua_Number → Int
  | .finite num exp =>
    if INT_MIN ≤ truncate num exp ∧ truncate num exp ≤ INT_MAX then truncate num exp else INT_MIN
  | _ => INT_MIN

/-- Two's-complement reduction of an integer to `w` bits, signed. -/
def wrapSigned (w : Nat) (i : Int) : Int :=
  if i % 2 ^ w < 2 ^ (w - 1) then i % 2 ^ w else i % 2 ^ w - 2 ^ w

/-- Conversion `lua_number2integer`: a double to `lua_Integer` (`ptrdiff_t`, 64
bits): truncation toward zero, `-2^63` when the value does not fit. -/
def lua_number2integer : lua_Number → Int
  | .finite num exp =>
    if -2 ^ 63 ≤ truncate num exp ∧ truncate num exp < 2 ^ 63 then truncate num exp else -2 ^ 63
  | _ => -2 ^ 63

/-! ## Values of the scripting runtime -/

/-- A value on the Lua stack.  Tables and functions are identified by a
number; a userdata holds the `cSprite*` it wraps (the sprite class is the only
one this file registers). -/
inductive LuaValue where
  | nil
  | boolean (b : Bool)
  | number (n : lua_Number)
  | string (s : String)
  | table (id : Nat)
  | func (id : Nat)
  | userdata (p_sprite : Nat)
  deriving DecidableEq, Repr

/-- The errors raised through `luaL_error`, the `luaL_check*` functions,
`LuaWrap::check` and `lua_call`. -/
inductive LuaError where
  /-- "No class table given." -/
  | noClassTable
  /-- "UID %d is already used." -/
  | uidInUse (uid : Int)
  /-- "No function given." -/
  | noFunction
  /-- "No receiver (userdata) given." -/
  | noReceiver
  /-- "Invalid type '%s'." -/
  | invalidType (type : String)
  /-- Argument `narg` fails a `luaL_check*` function. -/
  | badArgument (narg : Nat)
  /-- The value is not a handle of a sprite (`LuaWrap::check`). -/
  | invalidReceiver
  /-- The value called is not a function, or the C stack is exhausted. -/
  | callFailed
  deriving DecidableEq, Repr

/-- The classification of a sprite.  `TYPE_ENEMY` stands for the types a
script cannot set. -/
inductive SpriteType where
  | TYPE_PASSIVE
  | TYPE_FRONT_PASSIVE
  | TYPE_MASSIVE
  | TYPE_HALFMASSIVE
  | TYPE_CLIMBABLE
  | TYPE_ENEMY
  deriving DecidableEq, Repr

/-- The members of `cSprite` the bindings read and write. -/
structure cSprite where
  m_uid : Int
  m_pos_x : lua_Number
  m_pos_y : lua_Number
  m_start_pos_x : lua_Number
  m_start_pos_y : lua_Number
  m_type : SpriteType
  m_active : Bool
  m_spawned : Bool
  m_image : Option String
  m_event_table : List (String × List Int)
  deriving DecidableEq, Repr

/-- The state the bindings work on: the sprites allocated so far (the address
of a sprite is its index), the sprite manager of the active level (the
addresses of its sprites), and the references held in the Lua registry
(reference `r` is entry `r - 1`). -/
structure World where
  heap : List cSprite
  m_sprite_manager : List Nat
  refs : List LuaValue
  deriving DecidableEq, Repr

/-- What the bindings take from outside this file: the conversions between
strings and numbers of the Lua runtime and the constructor of `cSprite`. -/
structure Extern where
  /-- Conversion of a string to a number (`luaO_str2d`), when it has one. -/
  str2number : String → Option lua_Number
  /-- Conversion of a number to a string (`lua_number2str`). -/
  number2str : lua_Number → String
  /-- The sprite `new cSprite(sprite_manager)` constructs; the constructor
  leaves the sprite manager as it is (the bindings call `Add` themselves). -/
  new_cSprite : World → cSprite

/-- Outcome of a binding: the values returned or the error raised, and the
state afterwards. -/
abbrev Result := Except LuaError (List LuaValue) × World

/-- The value at a stack index (1-based); nil beyond the top. -/
def arg (args : List LuaValue) (idx : Nat) : LuaValue :=
  (args[idx - 1]?).getD .nil

/-- Conversion `lua_tonumber`: numbers, and strings that convert to one. -/
def lua_tonumber (ext : Extern) : LuaValue → Option lua_Number
  | .number n => some n
  | .string s => ext.str2number s
  | _ => none

/-- Test `lua_isnumber`. -/
def lua_isnumber (ext : Extern) (v : LuaValue) : Bool :=
  (lua_tonumber ext v).isSome

/-- Conversion `lua_tostring`: strings, and numbers (converted). -/
def lua_tostring (ext : Extern) : LuaValue → Option String
  | .string s => some s
  | .number n => some (ext.number2str n)
  | _ => none

/-- Test `lua_isstring`. -/
def lua_isstring (ext : Extern) (v : LuaValue) : Bool :=
  (lua_tostring ext v).isSome

/-- Test `lua_isfunction`. -/
def lua_isfunction : LuaValue → Bool
  | .func _ => true
  | _ => false

/-- Test `lua_istable`. -/
def lua_istable : LuaValue → Bool
  | .table _ => true
  | _ => false

/-- Test `lua_isuserdata`. -/
def lua_isuserdata : LuaValue → Bool
  | .userdata _ => true
  | _ => false

/-- Check `luaL_checknumber` of argument `narg`. -/
def luaL_checknumber (ext : Extern) (args : List LuaValue) (narg : Nat) : Except LuaError lua_Number :=
  match lua_tonumber ext (arg args narg) with
  | some n => .ok n
  | none => .error (.badArgument narg)

/-- Check `luaL_checkinteger` of argument `narg`. -/
def luaL_checkinteger (ext : Extern) (args : List LuaValue) (narg : Nat) : Except LuaError Int :=
  match lua_tonumber ext (arg args narg) with
  | some n => .ok (lua_number2integer n)
  | none => .error (.badArgument narg)

/-- Check `luaL_checkint`: `(int)luaL_checkinteger`. -/
def luaL_checkint (ext : Extern) (args : List LuaValue) (narg : Nat) : Except LuaError Int :=
  (luaL_checkinteger ext args narg).map (wrapSigned 32)

/-- Check `luaL_checklong`: `(long)luaL_checkinteger`, `long` of 64 bits. -/
def luaL_checklong (ext : Extern) (args : List LuaValue) (narg : Nat) : Except LuaError Int :=
  (luaL_checkinteger ext args narg).map (wrapSigned 64)

/-- Conversion of a `const char*` to a `std::string` (also the view any C
function has of it): the characters before the first NUL character. -/
def std_string (c_str : String) : String :=
  String.mk (c_str.data.takeWhile (fun c => c ≠ Char.ofNat 0))

/-- Check `luaL_checkstring` of argument `narg`: the `const char*` of the Lua
string, whose content may go on after a NUL character. -/
def luaL_checkstring (ext : Extern) (args : List LuaValue) (narg : Nat) : Except LuaError String :=
  match lua_tostring ext (arg args narg) with
  | some s => .ok s
  | none => .error (.badArgument narg)

/-! ## The sprite and the sprite manager

The members of `cSprite` and `cSprite_Manager` are declared in headers that are
not part of this file; their effect on the fields above is taken from the
specification. -/

/-- Modelled from the spec: `cSprite::Set_Pos_X(float x, bool new_startpos)`
("sets position component directly"). -/
def cSprite.Set_Pos_X (s : cSprite) (x : lua_Number) (new_startpos : Bool) : cSprite :=
  { s with m_pos_x := x, m_start_pos_x := if new_startpos then x else s.m_start_pos_x }

/-- Modelled from the spec: `cSprite::Set_Pos_Y(float y, bool new_startpos)`. -/
def cSprite.Set_Pos_Y (s : cSprite) (y : lua_Number) (new_startpos : Bool) : cSprite :=
  { s with m_pos_y := y, m_start_pos_y := if new_startpos then y else s.m_start_pos_y }

/-- Modelled from the spec: `cSprite::Set_Pos(float x, float y, bool new_startpos)`
("sets both position components atomically"). -/
def cSprite.Set_Pos (s : cSprite) (x y : lua_Number) (new_startpos : Bool) : cSprite :=
  { s with m_pos_x := x, m_pos_y := y,
           m_start_pos_x := if new_startpos then x else s.m_start_pos_x,
           m_start_pos_y := if new_startpos then y else s.m_start_pos_y }

/-- Modelled from the spec: `cSprite::Set_Sprite_Type` ("sets classification"). -/
def cSprite.Set_Sprite_Type (s : cSprite) (type : SpriteType) : cSprite :=
  { s with m_type := type }

/-- Modelled from the spec: `cSprite::Set_Active` ("sets visibility flag"). -/
def cSprite.Set_Active (s : cSprite) (enabled : Bool) : cSprite :=
  { s with m_active := enabled }

/-- Modelled from the spec: `cSprite::Set_Spawned` (the "spawned" marker). -/
def cSprite.Set_Spawned (s : cSprite) (spawned : Bool) : cSprite :=
  { s with m_spawned := spawned }

/-- Modelled from the spec: `cSprite::Set_Image` with the surface
`pVideo->Get_Surface(path)` ("assigns the corresponding visual"); the surface
is identified by its path. -/
def cSprite.Set_Image (s : cSprite) (path : String) : cSprite :=
  { s with m_image := some path }

/-- The sprite at an address. -/
def World.deref (w : World) (p : Nat) : Option cSprite :=
  w.heap[p]?

/-- Store a sprite at an address (a write through the pointer). -/
def World.store (w : World) (p : Nat) (s : cSprite) : World :=
  { w with heap := w.heap.set p s }

/-- Modelled from the spec: `cSprite_Manager::Is_UID_In_Use`
("is_uid_in_use(uid) -> bool"): some sprite of the manager has this UID. -/
def World.Is_UID_In_Use (w : World) (uid : Int) : Bool :=
  w.m_sprite_manager.any (fun p => match w.deref p with
    | some s => decide (s.m_uid = uid)
    | none => false)

/-- Modelled from the spec: `cSprite_Manager::Get_by_UID`
("find_by_uid(uid) -> EntityRef?"): the first sprite of the manager with this
UID, a null pointer (`none`) when there is none.  The key is the `unsigned
long` of the caller; a sprite's UID, an `int`, is equal to it when it is after
its conversion to `unsigned long` (so the key `2^64 - 3` finds the UID -3). -/
def World.Get_by_UID (w : World) (uid : Int) : Option Nat :=
  w.m_sprite_manager.find? (fun p => match w.deref p with
    | some s => decide (s.m_uid % 2 ^ 64 = uid)
    | none => false)

/-- Modelled from the spec: `cSprite_Manager::Add` ("register(EntityRef)"):
the sprite joins the sprites of the manager. -/
def World.Add (w : World) (p : Nat) : World :=
  { w with m_sprite_manager := w.m_sprite_manager ++ [p] }

/-- Modelled from the spec: `LuaWrap::check<cSprite*>` followed by the
dereference: the sprite pointer a handle wraps, an error for a value that is
not a handle of an allocated sprite ("InvalidReceiver if the first argument is
not a valid Handle"). -/
def check (w : World) (args : List LuaValue) (idx : Nat) : Except LuaError (Nat × cSprite) :=
  match arg args idx with
  | .userdata p =>
    match w.deref p with
    | some s => .ok (p, s)
    | none => .error .invalidReceiver
  | _ => .error .invalidReceiver

/-- Function `luaL_ref(L, LUA_REGISTRYINDEX)`: store the value in the registry
and return its reference (`LUA_REFNIL`, -1, for nil). -/
def luaL_ref (w : World) (v : LuaValue) : Int × World :=
  if v = .nil then (-1, w)
  else ((w.refs.length + 1 : Nat), { w with refs := w.refs ++ [v] })

/-- The value a registry reference stands for (`lua_rawgeti`), nil when there
is none. -/
def lua_rawgeti (w : World) (ref : Int) : LuaValue :=
  if 1 ≤ ref then (w.refs[ref.toNat - 1]?).getD .nil else .nil

/-- The callback list `m_event_table[name]` for a name given as `const char*`:
the key is the `std::string` built from it (an empty list when the key is
absent). -/
def event_list (table : List (String × List Int)) (name : String) : List Int :=
  match table.find? (fun e => e.1 == std_string name) with
  | some e => e.2
  | none => []

/-- Statement `m_event_table[name].push_back(ref)` on a `std::map` of
`std::vector`, for a name given as `const char*`: the key is the `std::string`
built from it, and is created when absent. -/
def event_push_back : List (String × List Int) → String → Int → List (String × List Int)
  | [], name, ref => [(std_string name, [ref])]
  | e :: rest, name, ref =>
    if e.1 == std_string name then (e.1, e.2 ++ [ref]) :: rest
    else e :: event_push_back rest name ref

/-! ## The bindings -/

/-- Binding `Lua_Sprite_Allocate` (`Sprite:new`). -/
def Lua_Sprite_Allocate (ext : Extern) (w : World) (args : List LuaValue) : Result :=
  if !lua_istable (arg args 1) then (.error .noClassTable, w)
  else
    -- new cSprite(pActive_Level->m_sprite_manager), at a fresh address
    let p_sprite := w.heap.length
    let s0 := ext.new_cSprite w
    -- optional image argument
    let s1 := if lua_isstring ext (arg args 2) then
        s0.Set_Image (std_string ((lua_tostring ext (arg args 2)).getD ""))
      else s0
    -- optional X coordinate argument (an int, converted to float by the call)
    match (if lua_isnumber ext (arg args 3) then
        (luaL_checkint ext args 3).map
          (fun x => s1.Set_Pos_X (static_cast_float (.finite x 0)) true)
      else .ok s1) with
    | .error e => (.error e, { w with heap := w.heap ++ [s1] })
    | .ok s2 =>
      -- optional Y coordinate argument
      match (if lua_isnumber ext (arg args 4) then
          (luaL_checkint ext args 4).map
            (fun y => s2.Set_Pos_Y (static_cast_float (.finite y 0)) true)
        else .ok s2) with
      | .error e => (.error e, { w with heap := w.heap ++ [s2] })
      | .ok s3 =>
        let w1 : World := { w with heap := w.heap ++ [s3] }
        -- optional UID argument
        if lua_isnumber ext (arg args 5) then
          let uid := static_cast_int ((lua_tonumber ext (arg args 5)).getD (.finite 0 0))
          if w1.Is_UID_In_Use uid then (.error (.uidInUse uid), w1)
          else
            let s4 := { s3 with m_uid := uid }
            let s5 := ((s4.Set_Sprite_Type .TYPE_FRONT_PASSIVE).Set_Active false).Set_Spawned true
            (.ok [.userdata p_sprite], ({ w with heap := w.heap ++ [s5] } : World).Add p_sprite)
        else
          let s5 := ((s3.Set_Sprite_Type .TYPE_FRONT_PASSIVE).Set_Active false).Set_Spawned true
          (.ok [.userdata p_sprite], ({ w with heap := w.heap ++ [s5] } : World).Add p_sprite)

/-- Binding `Lua_Sprite___index` (`Sprite[uid]`). -/
def Lua_Sprite___index (ext : Extern) (w : World) (args : List LuaValue) : Result :=
  match luaL_checklong ext args 2 with
  | .error e => (.error e, w)
  | .ok l =>
    -- unsigned long uid
    let uid : Int := l % 2 ^ 64
    match w.Get_by_UID uid with
    | none => (.ok [.nil], w)
    | some p_sprite => (.ok [.userdata p_sprite], w)

/-- Binding `Lua_Sprite_Register` (`register`). -/
def Lua_Sprite_Register (ext : Extern) (w : World) (args : List LuaValue) : Result :=
  match check w args 1 with
  | .error e => (.error e, w)
  | .ok (p_sprite, s) =>
    match luaL_checkstring ext args 2 with
    | .error e => (.error e, w)
    | .ok str =>
      if !lua_isfunction (arg args 3) then (.error .noFunction, w)
      else
        let r := luaL_ref w (arg args 3)
        (.ok [], r.2.store p_sprite { s with m_event_table := event_push_back s.m_event_table str r.1 })

/-- Binding `Lua_Sprite_Show` (`show`). -/
def Lua_Sprite_Show (w : World) (args : List LuaValue) : Result :=
  match check w args 1 with
  | .error e => (.error e, w)
  | .ok (p_sprite, s) => (.ok [], w.store p_sprite (s.Set_Active true))

/-- Binding `Lua_Sprite_Hide` (`hide`). -/
def Lua_Sprite_Hide (w : World) (args : List LuaValue) : Result :=
  match check w args 1 with
  | .error e => (.error e, w)
  | .ok (p_sprite, s) => (.ok [], w.store p_sprite (s.Set_Active false))

/-- Binding `Lua_Sprite_Get_UID` (`get_uid`). -/
def Lua_Sprite_Get_UID (w : World) (args : List LuaValue) : Result :=
  match check w args 1 with
  | .error e => (.error e, w)
  | .ok (_, s) => (.ok [.number (.finite s.m_uid 0)], w)

/-- Binding `Lua_Sprite_Set_Massive_Type` (`set_massive_type`). -/
def Lua_Sprite_Set_Massive_Type (ext : Extern) (w : World) (args : List LuaValue) : Result :=
  match check w args 1 with
  | .error e => (.error e, w)
  | .ok (p_sprite, s) =>
    match (luaL_checkstring ext args 2).map std_string with
    | .error e => (.error e, w)
    | .ok type =>
      if type = "passive" then
        (.ok [], w.store p_sprite (s.Set_Sprite_Type .TYPE_PASSIVE))
      else if type = "frontpassive" ∨ type = "front_passive" then
        (.ok [], w.store p_sprite (s.Set_Sprite_Type .TYPE_FRONT_PASSIVE))
      else if type = "massive" then
        (.ok [], w.store p_sprite (s.Set_Sprite_Type .TYPE_MASSIVE))
      else if type = "halfmassive" ∨ type = "half_massive" then
        (.ok [], w.store p_sprite (s.Set_Sprite_Type .TYPE_HALFMASSIVE))
      else if type = "climbable" then
        (.ok [], w.store p_sprite (s.Set_Sprite_Type .TYPE_CLIMBABLE))
      else (.error (.invalidType type), w)

/-- Binding `Lua_Sprite_Get_X` (`get_x`). -/
def Lua_Sprite_Get_X (w : World) (args : List LuaValue) : Result :=
  match check w args 1 with
  | .error e => (.error e, w)
  | .ok (_, s) => (.ok [.number s.m_pos_x], w)

/-- Binding `Lua_Sprite_Set_X` (`set_x`). -/
def Lua_Sprite_Set_X (ext : Extern) (w : World) (args : List LuaValue) : Result :=
  match check w args 1 with
  | .error e => (.error e, w)
  | .ok (p_sprite, s) =>
    match luaL_checknumber ext args 2 with
    | .error e => (.error e, w)
    | .ok n => (.ok [], w.store p_sprite (s.Set_Pos_X (static_cast_float n) false))

/-- Binding `Lua_Sprite_Get_Y` (`get_y`). -/
def Lua_Sprite_Get_Y (w : World) (args : List LuaValue) : Result :=
  match check w args 1 with
  | .error e => (.error e, w)
  | .ok (_, s) => (.ok [.number s.m_pos_y], w)

/-- Binding `Lua_Sprite_Set_Y` (`set_y`). -/
def Lua_Sprite_Set_Y (ext : Extern) (w : World) (args : List LuaValue) : Result :=
  match check w args 1 with
  | .error e => (.error e, w)
  | .ok (p_sprite, s) =>
    match luaL_checknumber ext args 2 with
    | .error e => (.error e, w)
    | .ok n => (.ok [], w.store p_sprite (s.Set_Pos_Y (static_cast_float n) false))

/-- Binding `Lua_Sprite_Pos` (`pos`). -/
def Lua_Sprite_Pos (w : World) (args : List LuaValue) : Result :=
  match check w args 1 with
  | .error e => (.error e, w)
  | .ok (_, s) => (.ok [.number s.m_pos_x, .number s.m_pos_y], w)

/-- Binding `Lua_Sprite_Warp` (`warp`). -/
def Lua_Sprite_Warp (ext : Extern) (w : World) (args : List LuaValue) : Result :=
  match check w args 1 with
  | .error e => (.error e, w)
  | .ok (p_sprite, s) =>
    match luaL_checknumber ext args 2 with
    | .error e => (.error e, w)
    | .ok new_x =>
      match luaL_checknumber ext args 3 with
      | .error e => (.error e, w)
      | .ok new_y =>
        (.ok [], w.store p_sprite (s.Set_Pos (static_cast_float new_x) (static_cast_float new_y) false))

/-! ## Method table and event forwarding -/

/-- The C functions this file registers as instance methods. -/
inductive CFunction where
  | Lua_Sprite_Get_UID
  | Lua_Sprite_Get_X
  | Lua_Sprite_Get_Y
  | Lua_Sprite_Hide
  | Lua_Sprite_on_touch
  | Lua_Sprite_Pos
  | Lua_Sprite_Register
  | Lua_Sprite_Set_Massive_Type
  | Lua_Sprite_Set_X
  | Lua_Sprite_Set_Y
  | Lua_Sprite_Show
  | Lua_Sprite_Warp
  deriving DecidableEq, Repr

/-- The table `Sprite_Methods`. -/
def Sprite_Methods : List (String × CFunction) :=
  [("get_uid", .Lua_Sprite_Get_UID),
   ("get_x", .Lua_Sprite_Get_X),
   ("get_y", .Lua_Sprite_Get_Y),
   ("hide", .Lua_Sprite_Hide),
   ("on_touch", .Lua_Sprite_on_touch),
   ("pos", .Lua_Sprite_Pos),
   ("register", .Lua_Sprite_Register),
   ("set_massive_type", .Lua_Sprite_Set_Massive_Type),
   ("set_x", .Lua_Sprite_Set_X),
   ("set_y", .Lua_Sprite_Set_Y),
   ("show", .Lua_Sprite_Show),
   ("warp", .Lua_Sprite_Warp)]

/-- Function `lua_gettable` with a string key on a receiver: a userdata finds
the instance methods of the sprite class, any other value finds nothing. -/
def lua_gettable (receiver : LuaValue) (key : String) : Option CFunction :=
  match receiver with
  | .userdata _ => (Sprite_Methods.find? (fun m => m.1 == key)).map (fun m => m.2)
  | _ => none

/-- Helper `Script::Forward_To_Sprite_Register`; `call` is `lua_call`. -/
def Forward_To_Sprite_Register (call : CFunction → World → List LuaValue → Result)
    (w : World) (args : List LuaValue) (event_name : String) : Result :=
  if !lua_isuserdata (arg args 1) then (.error .noReceiver, w)
  else if !lua_isfunction (arg args 2) then (.error .noFunction, w)
  else
    match lua_gettable (arg args 1) "register" with
    | none => (.error .callFailed, w)
    | some f =>
      match call f w [arg args 1, .string (std_string event_name), arg args 2] with
      | (.ok _, w1) => (.ok [], w1)
      | (.error e, w1) => (.error e, w1)

/-- Function `lua_call` on one of the C functions above.  `depth` bounds the
nesting of C calls, as the runtime does.
Modelled from the spec: `LUA_IMPLEMENT_EVENT(touch)` defines the handler of
`on_touch` as a call of `Forward_To_Sprite_Register` with the name "touch". -/
def lua_call (ext : Extern) : Nat → CFunction → World → List LuaValue → Result
  | 0, _, w, _ => (.error .callFailed, w)
  | depth + 1, f, w, args =>
    match f with
    | .Lua_Sprite_Get_UID => Lua_Sprite_Get_UID w args
    | .Lua_Sprite_Get_X => Lua_Sprite_Get_X w args
    | .Lua_Sprite_Get_Y => Lua_Sprite_Get_Y w args
    | .Lua_Sprite_Hide => Lua_Sprite_Hide w args
    | .Lua_Sprite_on_touch => Forward_To_Sprite_Register (lua_call ext depth) w args "touch"
    | .Lua_Sprite_Pos => Lua_Sprite_Pos w args
    | .Lua_Sprite_Register => Lua_Sprite_Register ext w args
    | .Lua_Sprite_Set_Massive_Type => Lua_Sprite_Set_Massive_Type ext w args
    | .Lua_Sprite_Set_X => Lua_Sprite_Set_X ext w args
    | .Lua_Sprite_Set_Y => Lua_Sprite_Set_Y ext w args
    | .Lua_Sprite_Show => Lua_Sprite_Show w args
    | .Lua_Sprite_Warp => Lua_Sprite_Warp ext w args

/-- Modelled from the spec: the handler `LUA_IMPLEMENT_EVENT(touch)` defines
(`on_touch`), with room for `depth + 1` nested C calls. -/
def Lua_Sprite_on_touch (ext : Extern) (depth : Nat) (w : World) (args : List LuaValue) : Result :=
  Forward_To_Sprite_Register (lua_call ext (depth + 1)) w args "touch"

/-- Some sprite of the manager has this UID ("the UID of a live entity"). -/
def World.live_uid (w : World) (uid : Int) : Prop :=
  ∃ p s, p ∈ w.m_sprite_manager ∧ w.deref p = some s ∧ s.m_uid = uid

/-- Every UID of a sprite of the manager is a value of `int`, the type of the
UIDs. -/
def World.uids_are_int (w : World) : Prop :=
  ∀ p s, p ∈ w.m_sprite_manager → w.deref p = some s → INT_MIN ≤ s.m_uid ∧ s.m_uid ≤ INT_MAX

/-- Every sprite of the manager is an allocated sprite. -/
def World.managed_allocated (w : World) : Prop :=
  ∀ p ∈ w.m_sprite_manager, p < w.heap.length

/-- The new sprite of `Lua_Sprite_Allocate` after its image and coordinate
arguments are handled (before the UID argument is). -/
def allocate_positioned (ext : Extern) (w : World) (args : List LuaValue) : cSprite :=
  let s0 := ext.new_cSprite w
  let s1 := match lua_tostring ext (arg args 2) with
    | some path => s0.Set_Image (std_string path)
    | none => s0
  let s2 := match lua_tonumber ext (arg args 3) with
    | some n => s1.Set_Pos_X (static_cast_float (.finite (wrapSigned 32 (lua_number2integer n)) 0)) true
    | none => s1
  match lua_tonumber ext (arg args 4) with
  | some n => s2.Set_Pos_Y (static_cast_float (.finite (wrapSigned 32 (lua_number2integer n)) 0)) true
  | none => s2

/-- The defaults `Lua_Sprite_Allocate` gives the new sprite last. -/
def allocate_finished (s : cSprite) : cSprite :=
  ((s.Set_Sprite_Type .TYPE_FRONT_PASSIVE).Set_Active false).Set_Spawned true

/-- The type names `set_massive_type` accepts, as the specification lists them. -/
def massive_type_names : List String :=
  ["passive", "front_passive", "frontpassive", "massive", "half_massive", "halfmassive",
   "climbable"]

/-! ## Sample states -/

/-- A sprite as the constructor might leave it, with the given UID. -/
def sample_sprite (uid : Int) : cSprite :=
  { m_uid := uid, m_pos_x := .finite 0 0, m_pos_y := .finite 0 0,
    m_start_pos_x := .finite 0 0, m_start_pos_y := .finite 0 0,
    m_type := .TYPE_MASSIVE, m_active := true, m_spawned := false,
    m_image := none, m_event_table := [] }

/-- A sample environment: no string converts to a number, and the constructor
gives a new sprite a UID one above the largest of the manager. -/
def sample_ext : Extern :=
  { str2number := fun _ => none,
    number2str := fun _ => "",
    new_cSprite := fun w => sample_sprite
      (1 + (w.m_sprite_manager.map (fun p => ((w.deref p).map (fun s => s.m_uid)).getD 0)).foldl max 0) }

/-- A sample state: one managed sprite with UID 7 at address 0. -/
def sample_world : World :=
  { heap := [sample_sprite 7], m_sprite_manager := [0], refs := [] }

/-! ## Auxiliary facts -/

theorem deref_append (w : World) (x : cSprite) (p : Nat) (s : cSprite)
    (h : w.deref p = some s) :
    ({ w with heap := w.heap ++ [x] } : World).deref p = some s := by
  unfold World.deref at *
  have hp : p < w.heap.length := by
    by_contra hc
    rw [List.getElem?_eq_none (by omega)] at h
    cases h
  simp only
  rw [List.getElem?_append_left hp]
  exact h

theorem deref_append_new (w : World) (x : cSprite) :
    ({ w with heap := w.heap ++ [x] } : World).deref w.heap.length = some x := by
  simp [World.deref]

theorem Is_UID_In_Use_of_live (w : World) (uid : Int) (h : w.live_uid uid) :
    w.Is_UID_In_Use uid = true := by
  obtain ⟨p, s, hp, hs, hu⟩ := h
  unfold World.Is_UID_In_Use
  rw [List.any_eq_true]
  exact ⟨p, hp, by simp [hs, hu]⟩

theorem live_of_Is_UID_In_Use (w : World) (uid : Int) (h : w.Is_UID_In_Use uid = true) :
    w.live_uid uid := by
  unfold World.Is_UID_In_Use at h
  rw [List.any_eq_true] at h
  obtain ⟨p, hp, hq⟩ := h
  cases hs : w.deref p with
  | none => simp [hs] at hq
  | some s =>
    simp [hs] at hq
    exact ⟨p, s, hp, hs, hq⟩

theorem live_uid_append (w : World) (x : cSprite) (uid : Int) (h : w.live_uid uid) :
    ({ w with heap := w.heap ++ [x] } : World).live_uid uid := by
  obtain ⟨p, s, hp, hs, hu⟩ := h
  exact ⟨p, s, hp, deref_append w x p s hs, hu⟩

theorem live_uid_of_append (w : World) (x : cSprite) (uid : Int) (hwf : w.managed_allocated)
    (h : ({ w with heap := w.heap ++ [x] } : World).live_uid uid) : w.live_uid uid := by
  obtain ⟨p, s, hp, hs, hu⟩ := h
  refine ⟨p, s, hp, ?_, hu⟩
  have hlt : p < w.heap.length := hwf p hp
  unfold World.deref at *
  simp only at hs
  rw [List.getElem?_append_left hlt] at hs
  exact hs

theorem truncate_int (i : Int) : truncate i 0 = i := by
  unfold truncate
  split
  · simp only [pow_zero, Nat.div_one]
    omega
  · simp only [pow_zero, Nat.div_one]
    omega

theorem static_cast_int_of_int (i : Int) (h1 : INT_MIN ≤ i) (h2 : i ≤ INT_MAX) :
    static_cast_int (.finite i 0) = i := by
  simp [static_cast_int, truncate_int, h1, h2]

theorem Lua_Sprite_Allocate_eq (ext : Extern) (w : World) (args : List LuaValue) :
    Lua_Sprite_Allocate ext w args =
      if lua_istable (arg args 1) = true then
        match lua_tonumber ext (arg args 5) with
        | some n =>
          if ({ w with heap := w.heap ++ [allocate_positioned ext w args] } : World).Is_UID_In_Use
              (static_cast_int n) = true then
            (.error (.uidInUse (static_cast_int n)),
              { w with heap := w.heap ++ [allocate_positioned ext w args] })
          else
            (.ok [.userdata w.heap.length],
              ({ w with heap := w.heap ++
                [allocate_finished { allocate_positioned ext w args with m_uid := static_cast_int n }] }
                : World).Add w.heap.length)
        | none =>
          (.ok [.userdata w.heap.length],
            ({ w with heap := w.heap ++ [allocate_finished (allocate_positioned ext w args)] }
              : World).Add w.heap.length)
      else (.error .noClassTable, w) := by
  unfold Lua_Sprite_Allocate allocate_positioned
  cases lua_istable (arg args 1)
  · rfl
  · cases h2 : lua_tostring ext (arg args 2) <;>
    cases h3 : lua_tonumber ext (arg args 3) <;>
    cases h4 : lua_tonumber ext (arg args 4) <;>
    cases h5 : lua_tonumber ext (arg args 5) <;>
    simp [lua_isstring, lua_isnumber, luaL_checkint, luaL_checkinteger, h2, h3, h4, h5,
      Except.map, allocate_finished]

/-- C1: allocating with a UID argument that is the UID of a live entity fails
with the duplicate-identifier error, the sprite manager keeps exactly the
sprites it had, and every sprite allocated before the call is unchanged. -/
theorem allocate_duplicate_uid_fails (ext : Extern) (w : World) (args : List LuaValue)
    (uid : Int) (hclass : lua_istable (arg args 1) = true)
    (huid : arg args 5 = .number (.finite uid 0))
    (hmin : INT_MIN ≤ uid) (hmax : uid ≤ INT_MAX) (hlive : w.live_uid uid) :
    (Lua_Sprite_Allocate ext w args).1 = .error (.uidInUse uid) ∧
    (Lua_Sprite_Allocate ext w args).2.m_sprite_manager = w.m_sprite_manager ∧
    (Lua_Sprite_Allocate ext w args).2.refs = w.refs ∧
    ∀ p s, w.deref p = some s → (Lua_Sprite_Allocate ext w args).2.deref p = some s := by
  have hcast : static_cast_int (.finite uid 0) = uid := static_cast_int_of_int uid hmin hmax
  rw [Lua_Sprite_Allocate_eq, if_pos hclass]
  simp only [huid, lua_tonumber, hcast]
  rw [if_pos (Is_UID_In_Use_of_live _ uid (live_uid_append w _ uid hlive))]
  refine ⟨rfl, rfl, rfl, ?_⟩
  intro p s hs
  exact deref_append w _ p s hs

theorem allocate_duplicate_uid_fails_witness :
    (Lua_Sprite_Allocate sample_ext sample_world
        [.table 0, .string "farmer.png", .number (.finite 100 0), .number (.finite 50 0),
         .number (.finite 7 0)]).1 = .error (.uidInUse 7) ∧
    (Lua_Sprite_Allocate sample_ext sample_world
        [.table 0, .string "farmer.png", .number (.finite 100 0), .number (.finite 50 0),
         .number (.finite 7 0)]).2.m_sprite_manager = [0] :=
  have h := allocate_duplicate_uid_fails sample_ext sample_world
    [.table 0, .string "farmer.png", .number (.finite 100 0), .number (.finite 50 0),
     .number (.finite 7 0)] 7 (by decide) (by decide) (by decide) (by decide)
    ⟨0, sample_sprite 7, by decide, by decide, rfl⟩
  ⟨h.1, h.2.1⟩

/-- C5: whenever allocation succeeds, it returns one handle, to a sprite at a
fresh address that is front-passive, hidden and marked spawned, and the sprite
manager has gained exactly that sprite, once; every sprite allocated before is
unchanged. -/
theorem allocate_defaults (ext : Extern) (w : World) (args vals : List LuaValue)
    (hok : (Lua_Sprite_Allocate ext w args).1 = .ok vals) :
    vals = [.userdata w.heap.length] ∧
    (∃ s, (Lua_Sprite_Allocate ext w args).2.deref w.heap.length = some s ∧
      s.m_type = .TYPE_FRONT_PASSIVE ∧ s.m_active = false ∧ s.m_spawned = true) ∧
    (Lua_Sprite_Allocate ext w args).2.m_sprite_manager = w.m_sprite_manager ++ [w.heap.length] ∧
    (w.managed_allocated →
      (Lua_Sprite_Allocate ext w args).2.m_sprite_manager.count w.heap.length = 1) ∧
    ∀ p s, w.deref p = some s → (Lua_Sprite_Allocate ext w args).2.deref p = some s := by
  have hcount : w.managed_allocated → (w.m_sprite_manager ++ [w.heap.length]).count w.heap.length = 1 := by
    intro hwf
    have hnot : w.heap.length ∉ w.m_sprite_manager := fun hmem => Nat.lt_irrefl _ (hwf _ hmem)
    rw [List.count_append, List.count_eq_zero_of_not_mem hnot]
    simp
  rw [Lua_Sprite_Allocate_eq] at hok ⊢
  by_cases hclass : lua_istable (arg args 1) = true
  · rw [if_pos hclass] at hok ⊢
    cases hnum : lua_tonumber ext (arg args 5) with
    | none =>
      simp only [hnum] at hok ⊢
      refine ⟨by cases hok; rfl, ⟨_, deref_append_new w _, rfl, rfl, rfl⟩, rfl, hcount, ?_⟩
      intro p s hs
      exact deref_append w _ p s hs
    | some n =>
      simp only [hnum] at hok ⊢
      by_cases hused : ({ w with heap := w.heap ++ [allocate_positioned ext w args] } : World).Is_UID_In_Use
              (static_cast_int n) = true
      · rw [if_pos hused] at hok
        cases hok
      · rw [if_neg hused] at hok ⊢
        refine ⟨by cases hok; rfl, ⟨_, deref_append_new w _, rfl, rfl, rfl⟩, rfl, hcount, ?_⟩
        intro p s hs
        exact deref_append w _ p s hs
  · rw [if_neg hclass] at hok
    cases hok

theorem allocate_defaults_witness :
    [LuaValue.userdata 1] = [.userdata sample_world.heap.length] ∧
    (Lua_Sprite_Allocate sample_ext sample_world
      [.table 0, .string "farmer.png", .number (.finite 100 0), .number (.finite 50 0)]).2.m_sprite_manager
      = sample_world.m_sprite_manager ++ [sample_world.heap.length] :=
  have h := allocate_defaults sample_ext sample_world
    [.table 0, .string "farmer.png", .number (.finite 100 0), .number (.finite 50 0)]
    [.userdata 1] rfl
  ⟨h.1, h.2.2.1⟩

/-- C10 (as stated) fails: 2147483648 is a non-negative integer no live entity
has; allocation with it succeeds, and `get_uid` returns -2147483648. -/
theorem allocate_uid_above_int_range :
    ¬ sample_world.live_uid 2147483648 ∧
    (Lua_Sprite_Allocate sample_ext sample_world
      [.table 0, .nil, .nil, .nil, .number (.finite 2147483648 0)]).1 = .ok [.userdata 1] ∧
    (Lua_Sprite_Get_UID
      (Lua_Sprite_Allocate sample_ext sample_world
        [.table 0, .nil, .nil, .nil, .number (.finite 2147483648 0)]).2 [.userdata 1]).1
      = .ok [.number (.finite (-2147483648) 0)] ∧
    (Lua_Sprite_Get_UID
      (Lua_Sprite_Allocate sample_ext sample_world
        [.table 0, .nil, .nil, .nil, .number (.finite 2147483648 0)]).2 [.userdata 1]).1
      ≠ .ok [.number (.finite 2147483648 0)] := by
  refine ⟨?_, rfl, rfl, ?_⟩
  · intro h
    have h2 := Is_UID_In_Use_of_live _ _ h
    revert h2
    decide
  · intro h
    have h2 : (Except.ok [LuaValue.number (.finite (-2147483648) 0)] : Except LuaError (List LuaValue))
        = .ok [.number (.finite 2147483648 0)] := h
    injection h2 with h3
    revert h3
    decide

/-- C10 (amended): for a non-negative integer UID within the range of `int`
that no live entity has, allocation succeeds and `get_uid` on the returned
handle returns that UID. -/
theorem allocate_forces_uid (ext : Extern) (w : World) (args : List LuaValue) (uid : Int)
    (hclass : lua_istable (arg args 1) = true)
    (huid : arg args 5 = .number (.finite uid 0))
    (hnonneg : 0 ≤ uid) (hmax : uid ≤ INT_MAX)
    (hwf : w.managed_allocated) (hfree : ¬ w.live_uid uid) :
    (Lua_Sprite_Allocate ext w args).1 = .ok [.userdata w.heap.length] ∧
    Lua_Sprite_Get_UID (Lua_Sprite_Allocate ext w args).2 [.userdata w.heap.length]
      = (.ok [.number (.finite uid 0)], (Lua_Sprite_Allocate ext w args).2) := by
  have hmin : INT_MIN ≤ uid := le_trans (by decide) hnonneg
  have hcast : static_cast_int (.finite uid 0) = uid := static_cast_int_of_int uid hmin hmax
  have hunused : ¬ (({ w with heap := w.heap ++ [allocate_positioned ext w args] } : World).Is_UID_In_Use
      uid = true) := fun h => hfree (live_uid_of_append w _ uid hwf (live_of_Is_UID_In_Use _ uid h))
  rw [Lua_Sprite_Allocate_eq, if_pos hclass]
  simp only [huid, lua_tonumber, hcast]
  rw [if_neg hunused]
  refine ⟨rfl, ?_⟩
  simp [Lua_Sprite_Get_UID, check, arg, World.Add, World.deref, allocate_finished,
    cSprite.Set_Sprite_Type, cSprite.Set_Active, cSprite.Set_Spawned]

theorem allocate_forces_uid_witness :
    (Lua_Sprite_Allocate sample_ext sample_world
      [.table 0, .nil, .nil, .nil, .number (.finite 33 0)]).1 = .ok [.userdata 1] ∧
    Lua_Sprite_Get_UID (Lua_Sprite_Allocate sample_ext sample_world
      [.table 0, .nil, .nil, .nil, .number (.finite 33 0)]).2 [.userdata 1]
      = (.ok [.number (.finite 33 0)], (Lua_Sprite_Allocate sample_ext sample_world
      [.table 0, .nil, .nil, .nil, .number (.finite 33 0)]).2) :=
  allocate_forces_uid sample_ext sample_world
    [.table 0, .nil, .nil, .nil, .number (.finite 33 0)] 33 (by decide) (by decide)
    (by decide) (by decide)
    (by intro p hp; simp [sample_world] at hp ⊢; omega)
    (by intro h; have h2 := Is_UID_In_Use_of_live _ _ h; revert h2; decide)

theorem checkint_of_int (i : Int) (h1 : INT_MIN ≤ i) (h2 : i ≤ INT_MAX) :
    wrapSigned 32 (lua_number2integer (.finite i 0)) = i := by
  unfold INT_MIN at h1
  unfold INT_MAX at h2
  have hw : wrapSigned 32 i = i := by
    unfold wrapSigned
    norm_num
    split <;> omega
  have hn : lua_number2integer (.finite i 0) = i := by
    simp only [lua_number2integer, truncate_int]
    rw [if_pos]
    constructor <;> omega
  rw [hn, hw]

/-- C4 (as stated) fails: allocation at x = 0.5, y = 16777217 succeeds, and
`get_x` returns 0 and `get_y` returns 16777216; allocation at x = 2147483648
succeeds, and `get_x` returns -2147483648. -/
theorem allocate_position_not_exact :
    (Lua_Sprite_Allocate sample_ext sample_world
      [.table 0, .string "farmer.png", .number (.finite 1 1), .number (.finite 16777217 0)]).1
      = .ok [.userdata 1] ∧
    (Lua_Sprite_Get_X (Lua_Sprite_Allocate sample_ext sample_world
      [.table 0, .string "farmer.png", .number (.finite 1 1), .number (.finite 16777217 0)]).2
      [.userdata 1]).1 = .ok [.number (.finite 0 0)] ∧
    (Lua_Sprite_Get_Y (Lua_Sprite_Allocate sample_ext sample_world
      [.table 0, .string "farmer.png", .number (.finite 1 1), .number (.finite 16777217 0)]).2
      [.userdata 1]).1 = .ok [.number (.finite 16777216 0)] ∧
    LuaValue.number (.finite 0 0) ≠ .number (.finite 1 1) ∧
    LuaValue.number (.finite 16777216 0) ≠ .number (.finite 16777217 0) ∧
    (Lua_Sprite_Allocate sample_ext sample_world
      [.table 0, .string "farmer.png", .number (.finite 2147483648 0), .number (.finite 50 0)]).1
      = .ok [.userdata 1] ∧
    (Lua_Sprite_Get_X (Lua_Sprite_Allocate sample_ext sample_world
      [.table 0, .string "farmer.png", .number (.finite 2147483648 0), .number (.finite 50 0)]).2
      [.userdata 1]).1 = .ok [.number (.finite (-2147483648) 0)] :=
  ⟨rfl, rfl, rfl, by decide, by decide, rfl, rfl⟩

/-- C4 (amended): when x and y are whole numbers within the range of `int`
that single precision represents exactly, a successful allocation returns a
handle on which `get_x` returns x and `get_y` returns y. -/
theorem allocate_sets_position (ext : Extern) (w : World) (args vals : List LuaValue) (x y : Int)
    (hx : arg args 3 = .number (.finite x 0)) (hy : arg args 4 = .number (.finite y 0))
    (hxmin : INT_MIN ≤ x) (hxmax : x ≤ INT_MAX) (hymin : INT_MIN ≤ y) (hymax : y ≤ INT_MAX)
    (hxf : static_cast_float (.finite x 0) = .finite x 0)
    (hyf : static_cast_float (.finite y 0) = .finite y 0)
    (hok : (Lua_Sprite_Allocate ext w args).1 = .ok vals) :
    vals = [.userdata w.heap.length] ∧
    Lua_Sprite_Get_X (Lua_Sprite_Allocate ext w args).2 [.userdata w.heap.length]
      = (.ok [.number (.finite x 0)], (Lua_Sprite_Allocate ext w args).2) ∧
    Lua_Sprite_Get_Y (Lua_Sprite_Allocate ext w args).2 [.userdata w.heap.length]
      = (.ok [.number (.finite y 0)], (Lua_Sprite_Allocate ext w args).2) := by
  have hpx : (allocate_positioned ext w args).m_pos_x = .finite x 0 := by
    simp [allocate_positioned, hx, hy, lua_tonumber, checkint_of_int x hxmin hxmax,
      checkint_of_int y hymin hymax, hxf, hyf, cSprite.Set_Pos_X, cSprite.Set_Pos_Y]
  have hpy : (allocate_positioned ext w args).m_pos_y = .finite y 0 := by
    simp [allocate_positioned, hx, hy, lua_tonumber, checkint_of_int x hxmin hxmax,
      checkint_of_int y hymin hymax, hxf, hyf, cSprite.Set_Pos_X, cSprite.Set_Pos_Y]
  rw [Lua_Sprite_Allocate_eq] at hok ⊢
  by_cases hclass : lua_istable (arg args 1) = true
  · rw [if_pos hclass] at hok ⊢
    cases hnum : lua_tonumber ext (arg args 5) with
    | none =>
      simp only [hnum] at hok ⊢
      refine ⟨by cases hok; rfl, ?_, ?_⟩
      · simp [Lua_Sprite_Get_X, check, arg, World.Add, World.deref, allocate_finished,
          cSprite.Set_Sprite_Type, cSprite.Set_Active, cSprite.Set_Spawned, hpx]
      · simp [Lua_Sprite_Get_Y, check, arg, World.Add, World.deref, allocate_finished,
          cSprite.Set_Sprite_Type, cSprite.Set_Active, cSprite.Set_Spawned, hpy]
    | some n =>
      simp only [hnum] at hok ⊢
      by_cases hused : ({ w with heap := w.heap ++ [allocate_positioned ext w args] } : World).Is_UID_In_Use
              (static_cast_int n) = true
      · rw [if_pos hused] at hok
        cases hok
      · rw [if_neg hused] at hok ⊢
        refine ⟨by cases hok; rfl, ?_, ?_⟩
        · simp [Lua_Sprite_Get_X, check, arg, World.Add, World.deref, allocate_finished,
            cSprite.Set_Sprite_Type, cSprite.Set_Active, cSprite.Set_Spawned, hpx]
        · simp [Lua_Sprite_Get_Y, check, arg, World.Add, World.deref, allocate_finished,
            cSprite.Set_Sprite_Type, cSprite.Set_Active, cSprite.Set_Spawned, hpy]
  · rw [if_neg hclass] at hok
    cases hok

theorem allocate_sets_position_witness :
    Lua_Sprite_Get_X (Lua_Sprite_Allocate sample_ext sample_world
      [.table 0, .string "farmer.png", .number (.finite 100 0), .number (.finite 50 0)]).2
      [.userdata 1]
      = (.ok [.number (.finite 100 0)], (Lua_Sprite_Allocate sample_ext sample_world
      [.table 0, .string "farmer.png", .number (.finite 100 0), .number (.finite 50 0)]).2) ∧
    Lua_Sprite_Get_Y (Lua_Sprite_Allocate sample_ext sample_world
      [.table 0, .string "farmer.png", .number (.finite 100 0), .number (.finite 50 0)]).2
      [.userdata 1]
      = (.ok [.number (.finite 50 0)], (Lua_Sprite_Allocate sample_ext sample_world
      [.table 0, .string "farmer.png", .number (.finite 100 0), .number (.finite 50 0)]).2) :=
  (allocate_sets_position sample_ext sample_world
    [.table 0, .string "farmer.png", .number (.finite 100 0), .number (.finite 50 0)]
    [.userdata 1] 100 50 rfl rfl (by decide) (by decide) (by decide) (by decide)
    (by decide) (by decide) rfl).2

theorem deref_store_same (w : World) (p : Nat) (s t : cSprite) (h : w.deref p = some s) :
    (w.store p t).deref p = some t := by
  unfold World.deref World.store at *
  have hp : p < w.heap.length := by
    by_contra hc
    rw [List.getElem?_eq_none (by omega)] at h
    cases h
  simp [hp]

/-- C6 (as stated) fails: after `warp(0.1, 0)`, with 0.1 the double
3602879701896397 / 2^55, `pos()` returns 13421773 / 2^27 as first component. -/
theorem warp_pos_not_exact :
    (Lua_Sprite_Warp sample_ext sample_world
      [.userdata 0, .number (.finite 3602879701896397 55), .number (.finite 0 0)]).1 = .ok [] ∧
    (Lua_Sprite_Pos (Lua_Sprite_Warp sample_ext sample_world
      [.userdata 0, .number (.finite 3602879701896397 55), .number (.finite 0 0)]).2
      [.userdata 0]).1 = .ok [.number (.finite 13421773 27), .number (.finite 0 0)] ∧
    LuaValue.number (.finite 13421773 27) ≠ .number (.finite 3602879701896397 55) :=
  ⟨rfl, rfl, by decide⟩

/-- C6 (amended): for every entity and every pair of numbers x and y that
single precision represents exactly, `warp(x, y)` succeeds and `pos()` after it
returns exactly the pair (x, y). -/
theorem warp_then_pos (ext : Extern) (w : World) (p : Nat) (s : cSprite) (x y : lua_Number)
    (hs : w.deref p = some s)
    (hx : static_cast_float x = x) (hy : static_cast_float y = y) :
    (Lua_Sprite_Warp ext w [.userdata p, .number x, .number y]).1 = .ok [] ∧
    Lua_Sprite_Pos (Lua_Sprite_Warp ext w [.userdata p, .number x, .number y]).2 [.userdata p]
      = (.ok [.number x, .number y],
         (Lua_Sprite_Warp ext w [.userdata p, .number x, .number y]).2) := by
  have hw : Lua_Sprite_Warp ext w [.userdata p, .number x, .number y]
      = (.ok [], w.store p (s.Set_Pos x y false)) := by
    simp [Lua_Sprite_Warp, check, arg, hs, luaL_checknumber, lua_tonumber, hx, hy]
  rw [hw]
  refine ⟨rfl, ?_⟩
  simp [Lua_Sprite_Pos, check, arg, deref_store_same w p s _ hs, cSprite.Set_Pos]

theorem warp_then_pos_witness :
    (Lua_Sprite_Warp sample_ext sample_world
      [.userdata 0, .number (.finite 100 0), .number (.finite 101 1)]).1 = .ok [] ∧
    Lua_Sprite_Pos (Lua_Sprite_Warp sample_ext sample_world
      [.userdata 0, .number (.finite 100 0), .number (.finite 101 1)]).2 [.userdata 0]
      = (.ok [.number (.finite 100 0), .number (.finite 101 1)],
         (Lua_Sprite_Warp sample_ext sample_world
           [.userdata 0, .number (.finite 100 0), .number (.finite 101 1)]).2) :=
  warp_then_pos sample_ext sample_world 0 (sample_sprite 7) (.finite 100 0) (.finite 101 1)
    rfl (by decide) (by decide)

theorem log2Fuel_spec : ∀ (fuel a : Nat), a ≤ fuel → 1 ≤ a →
    2 ^ log2Fuel fuel a ≤ a ∧ a < 2 ^ (log2Fuel fuel a + 1) := by
  intro fuel
  induction fuel with
  | zero => intro a h1 h2; omega
  | succ n ih =>
    intro a h1 h2
    unfold log2Fuel
    by_cases h : a < 2
    · rw [if_pos h]
      simp
      omega
    · rw [if_neg h]
      have hd := ih (a / 2) (by omega) (by omega)
      obtain ⟨hd1, hd2⟩ := hd
      constructor
      · rw [Nat.add_comm 1, pow_succ]
        omega
      · rw [Nat.add_comm 1, pow_succ]
        omega

theorem normalize_mul_pow (n : Int) (k : Nat) : normalize (n * 2 ^ k) k = .finite n 0 := by
  induction k with
  | zero => simp [normalize]
  | succ k ih =>
    unfold normalize
    have h1 : n * 2 ^ (k + 1) % 2 = 0 := by
      rw [pow_succ, ← mul_assoc]
      exact Int.mul_emod_left _ _
    have h2 : n * 2 ^ (k + 1) / 2 = n * 2 ^ k := by
      rw [pow_succ, ← mul_assoc]
      exact Int.mul_ediv_cancel _ (by decide)
    rw [if_pos h1, h2, ih]

theorem nearestBinary32_int (a : Nat) (h1 : 1 ≤ a) (h2 : a ≤ 16777216) :
    (∃ k : Nat, k ≤ 23 ∧ nearestBinary32 a 0 = (a * 2 ^ k, -(k : Int))) ∨
    (a = 16777216 ∧ nearestBinary32 a 0 = (8388608, 1)) := by
  obtain ⟨hl1, hl2⟩ := log2Fuel_spec a a (le_refl _) h1
  have he : log2Fuel a a ≤ 24 := by
    by_contra hc
    have : 2 ^ 25 ≤ 2 ^ log2Fuel a a := Nat.pow_le_pow_right (by decide) (by omega)
    omega
  unfold nearestBinary32
  generalize log2Fuel a a = e at hl1 hl2 he
  rcases Nat.lt_or_ge e 24 with hlt | hge
  · left
    refine ⟨23 - e, by omega, ?_⟩
    have hmax : max ((e : Int) - ((0 : Nat) : Int)) (-126) - 23 = -((23 - e : Nat) : Int) := by
      rw [max_eq_left (by omega)]
      omega
    simp only [hmax]
    have hshift : ((0 : Nat) : Int) + -((23 - e : Nat) : Int) ≤ 0 := by omega
    rw [if_pos hshift]
    have htn : (-(((0 : Nat) : Int) + -((23 - e : Nat) : Int))).toNat = 23 - e := by omega
    rw [htn]
  · right
    have he24 : e = 24 := by omega
    subst he24
    have ha : a = 16777216 := by
      norm_num at hl1
      omega
    subst ha
    exact ⟨rfl, by decide⟩

/-- Single precision represents every whole number of magnitude at most 2^24. -/
theorem static_cast_float_small_int (x : Int) (h1 : -16777216 ≤ x) (h2 : x ≤ 16777216) :
    static_cast_float (.finite x 0) = .finite x 0 := by
  by_cases h0 : x = 0
  · simp [h0, static_cast_float]
  · simp only [static_cast_float, if_neg h0]
    have hsign : (if x < 0 then (-1 : Int) else 1) * (x.natAbs : Int) = x := by
      split <;> omega
    rcases nearestBinary32_int x.natAbs (by omega) (by omega) with ⟨k, hk, hr⟩ | ⟨ha, hr⟩
    · rw [hr]
      simp only
      by_cases hk0 : k = 0
      · subst hk0
        simp only [Nat.cast_zero, neg_zero, le_refl, if_true, Int.toNat_zero, pow_zero, mul_one]
        rw [if_neg (by omega), hsign]
      · rw [if_neg (by omega)]
        have htn : (- -(k : Int)).toNat = k := by omega
        rw [htn]
        have hm : (if x < 0 then (-1 : Int) else 1) * ((x.natAbs * 2 ^ k : Nat) : Int)
            = x * 2 ^ k := by
          rw [Nat.cast_mul, ← mul_assoc, hsign]
          norm_cast
        rw [hm, normalize_mul_pow]
    · rw [hr]
      have hx : x = 16777216 ∨ x = -16777216 := by omega
      rcases hx with hx | hx <;> subst hx <;> decide

theorem deref_store_other (w : World) (p q : Nat) (t : cSprite) (h : q ≠ p) :
    (w.store p t).deref q = w.deref q := by
  unfold World.deref World.store
  simp [List.getElem?_set, Ne.symm h]

theorem set_massive_type_eq (ext : Extern) (w : World) (p : Nat) (s : cSprite) (name : String)
    (hs : w.deref p = some s) :
    Lua_Sprite_Set_Massive_Type ext w [.userdata p, .string name] =
      if std_string name = "passive" then (.ok [], w.store p (s.Set_Sprite_Type .TYPE_PASSIVE))
      else if std_string name = "frontpassive" ∨ std_string name = "front_passive" then
        (.ok [], w.store p (s.Set_Sprite_Type .TYPE_FRONT_PASSIVE))
      else if std_string name = "massive" then
        (.ok [], w.store p (s.Set_Sprite_Type .TYPE_MASSIVE))
      else if std_string name = "halfmassive" ∨ std_string name = "half_massive" then
        (.ok [], w.store p (s.Set_Sprite_Type .TYPE_HALFMASSIVE))
      else if std_string name = "climbable" then
        (.ok [], w.store p (s.Set_Sprite_Type .TYPE_CLIMBABLE))
      else (.error (.invalidType (std_string name)), w) := by
  simp [Lua_Sprite_Set_Massive_Type, check, arg, hs, luaL_checkstring, lua_tostring, Except.map]

theorem set_massive_type_cases (ext : Extern) (w : World) (p : Nat) (s : cSprite) (name : String)
    (hs : w.deref p = some s) :
    (std_string name ∉ massive_type_names ∧
      Lua_Sprite_Set_Massive_Type ext w [.userdata p, .string name]
        = (.error (.invalidType (std_string name)), w)) ∨
    (std_string name ∈ massive_type_names ∧ ∃ t,
      Lua_Sprite_Set_Massive_Type ext w [.userdata p, .string name]
        = (.ok [], w.store p { s with m_type := t }) ∧
      (std_string name = "passive" → t = .TYPE_PASSIVE) ∧
      (std_string name = "front_passive" ∨ std_string name = "frontpassive" →
        t = .TYPE_FRONT_PASSIVE) ∧
      (std_string name = "massive" → t = .TYPE_MASSIVE) ∧
      (std_string name = "half_massive" ∨ std_string name = "halfmassive" →
        t = .TYPE_HALFMASSIVE) ∧
      (std_string name = "climbable" → t = .TYPE_CLIMBABLE)) := by
  rw [set_massive_type_eq ext w p s name hs]
  generalize std_string name = n
  simp only [massive_type_names, List.mem_cons, List.mem_singleton, List.not_mem_nil, or_false,
    cSprite.Set_Sprite_Type]
  by_cases h1 : n = "passive"
  · subst h1; right; exact ⟨by simp, .TYPE_PASSIVE, by simp, by simp, by simp, by simp, by simp, by simp⟩
  by_cases h2 : n = "front_passive"
  · subst h2; right; exact ⟨by simp, .TYPE_FRONT_PASSIVE, by simp, by simp, by simp, by simp, by simp, by simp⟩
  by_cases h3 : n = "frontpassive"
  · subst h3; right; exact ⟨by simp, .TYPE_FRONT_PASSIVE, by simp, by simp, by simp, by simp, by simp, by simp⟩
  by_cases h4 : n = "massive"
  · subst h4; right; exact ⟨by simp, .TYPE_MASSIVE, by simp, by simp, by simp, by simp, by simp, by simp⟩
  by_cases h5 : n = "half_massive"
  · subst h5; right; exact ⟨by simp, .TYPE_HALFMASSIVE, by simp, by simp, by simp, by simp, by simp, by simp⟩
  by_cases h6 : n = "halfmassive"
  · subst h6; right; exact ⟨by simp, .TYPE_HALFMASSIVE, by simp, by simp, by simp, by simp, by simp, by simp⟩
  by_cases h7 : n = "climbable"
  · subst h7; right; exact ⟨by simp, .TYPE_CLIMBABLE, by simp, by simp, by simp, by simp, by simp, by simp⟩
  left
  exact ⟨by simp [h1, h2, h3, h4, h5, h6, h7], by simp [h1, h2, h3, h4, h5, h6, h7]⟩

/-- C2 (as stated) fails: "passive" followed by a NUL character and "x" is a
string that is not one of the seven names, and `set_massive_type` succeeds on
it and makes the sprite passive. -/
theorem set_massive_type_accepts_nul_suffix :
    "passive\x00x" ∉ massive_type_names ∧
    (Lua_Sprite_Set_Massive_Type sample_ext sample_world
      [.userdata 0, .string "passive\x00x"]).1 = .ok [] ∧
    ((Lua_Sprite_Set_Massive_Type sample_ext sample_world
      [.userdata 0, .string "passive\x00x"]).2.deref 0).map (fun s => s.m_type)
      = some .TYPE_PASSIVE ∧
    (sample_world.deref 0).map (fun s => s.m_type) = some .TYPE_MASSIVE :=
  ⟨by decide, rfl, rfl, rfl⟩

/-- C2 (amended): on an entity, with the name read as a C string (the
characters before its first NUL character), `set_massive_type(name)` succeeds
exactly when that C string is one of the seven listed names; the sprite,
read back through its handle, then has the classification named (both
spellings of front-passive give `TYPE_FRONT_PASSIVE`, both of half-massive
`TYPE_HALFMASSIVE`) and its other members as before; for any other string the
call fails with the invalid-type error and the state, so the classification,
is as before; no other sprite, the sprite manager or the Lua registry ever
changes. -/
theorem set_massive_type_spec (ext : Extern) (w : World) (p : Nat) (s : cSprite) (name : String)
    (hs : w.deref p = some s) :
    ((Lua_Sprite_Set_Massive_Type ext w [.userdata p, .string name]).1 = .ok []
      ↔ std_string name ∈ massive_type_names) ∧
    (std_string name = "passive" →
      (Lua_Sprite_Set_Massive_Type ext w [.userdata p, .string name]).2.deref p
        = some { s with m_type := .TYPE_PASSIVE }) ∧
    (std_string name = "front_passive" ∨ std_string name = "frontpassive" →
      (Lua_Sprite_Set_Massive_Type ext w [.userdata p, .string name]).2.deref p
        = some { s with m_type := .TYPE_FRONT_PASSIVE }) ∧
    (std_string name = "massive" →
      (Lua_Sprite_Set_Massive_Type ext w [.userdata p, .string name]).2.deref p
        = some { s with m_type := .TYPE_MASSIVE }) ∧
    (std_string name = "half_massive" ∨ std_string name = "halfmassive" →
      (Lua_Sprite_Set_Massive_Type ext w [.userdata p, .string name]).2.deref p
        = some { s with m_type := .TYPE_HALFMASSIVE }) ∧
    (std_string name = "climbable" →
      (Lua_Sprite_Set_Massive_Type ext w [.userdata p, .string name]).2.deref p
        = some { s with m_type := .TYPE_CLIMBABLE }) ∧
    (std_string name ∉ massive_type_names →
      Lua_Sprite_Set_Massive_Type ext w [.userdata p, .string name]
        = (.error (.invalidType (std_string name)), w)) ∧
    (∀ q, q ≠ p →
      (Lua_Sprite_Set_Massive_Type ext w [.userdata p, .string name]).2.deref q = w.deref q) ∧
    (Lua_Sprite_Set_Massive_Type ext w [.userdata p, .string name]).2.m_sprite_manager
      = w.m_sprite_manager ∧
    (Lua_Sprite_Set_Massive_Type ext w [.userdata p, .string name]).2.refs = w.refs := by
  rcases set_massive_type_cases ext w p s name hs with ⟨hn, he⟩ | ⟨hm, t, he, h1, h2, h3, h4, h5⟩
  · rw [he]
    have hne : ∀ n, n ∈ massive_type_names → std_string name ≠ n := fun n hn2 heq => hn (heq ▸ hn2)
    refine ⟨⟨fun h => (by cases h), fun h => absurd h hn⟩, ?_, ?_, ?_, ?_, ?_, fun _ => rfl,
      fun _ _ => rfl, rfl, rfl⟩
    · intro h; exact absurd h (hne _ (by decide))
    · intro h
      rcases h with h | h
      · exact absurd h (hne _ (by decide))
      · exact absurd h (hne _ (by decide))
    · intro h; exact absurd h (hne _ (by decide))
    · intro h
      rcases h with h | h
      · exact absurd h (hne _ (by decide))
      · exact absurd h (hne _ (by decide))
    · intro h; exact absurd h (hne _ (by decide))
  · rw [he]
    have hd := deref_store_same w p s { s with m_type := t } hs
    refine ⟨⟨fun _ => hm, fun _ => rfl⟩, ?_, ?_, ?_, ?_, ?_, fun h => absurd hm h,
      fun q hq => deref_store_other w p q _ hq, rfl, rfl⟩
    · intro h; rw [← h1 h]; exact hd
    · intro h; rw [← h2 h]; exact hd
    · intro h; rw [← h3 h]; exact hd
    · intro h; rw [← h4 h]; exact hd
    · intro h; rw [← h5 h]; exact hd

theorem set_massive_type_spec_witness :
    (Lua_Sprite_Set_Massive_Type sample_ext sample_world
      [.userdata 0, .string "halfmassive"]).2.deref 0
      = some { sample_sprite 7 with m_type := .TYPE_HALFMASSIVE } ∧
    Lua_Sprite_Set_Massive_Type sample_ext sample_world [.userdata 0, .string "enemy"]
      = (.error (.invalidType (std_string "enemy")), sample_world) :=
  ⟨(set_massive_type_spec sample_ext sample_world 0 (sample_sprite 7) "halfmassive" rfl).2.2.2.2.1
      (Or.inr (by decide)),
   (set_massive_type_spec sample_ext sample_world 0 (sample_sprite 7) "enemy" rfl).2.2.2.2.2.2.1
      (by decide)⟩

theorem index_key_matches (u m : Int) (h1 : INT_MIN ≤ m) (h2 : m ≤ INT_MAX) :
    m % 2 ^ 64 = wrapSigned 64 (lua_number2integer (.finite u 0)) % 2 ^ 64 ↔ m = u := by
  unfold INT_MIN at h1
  unfold INT_MAX at h2
  simp only [lua_number2integer, truncate_int, wrapSigned]
  norm_num
  by_cases hr : -9223372036854775808 ≤ u ∧ u < 9223372036854775808
  · rw [if_pos hr]
    split <;> omega
  · rw [if_neg hr]
    norm_num
    omega

theorem Get_by_UID_key_eq_none (w : World) (u : Int) (hint : w.uids_are_int)
    (h : ¬ w.live_uid u) :
    w.Get_by_UID (wrapSigned 64 (lua_number2integer (.finite u 0)) % 2 ^ 64) = none := by
  unfold World.Get_by_UID
  rw [List.find?_eq_none]
  intro p hp
  cases hs : w.deref p with
  | none => simp
  | some s =>
    have hr := hint p s hp hs
    simp only [decide_eq_true_eq]
    intro hk
    exact h ⟨p, s, hp, hs, (index_key_matches u s.m_uid hr.1 hr.2).mp hk⟩

theorem Get_by_UID_key_of_live (w : World) (u : Int) (hint : w.uids_are_int)
    (h : w.live_uid u) :
    ∃ p s, w.Get_by_UID (wrapSigned 64 (lua_number2integer (.finite u 0)) % 2 ^ 64) = some p ∧
      p ∈ w.m_sprite_manager ∧ w.deref p = some s ∧ s.m_uid = u := by
  cases hf : w.Get_by_UID (wrapSigned 64 (lua_number2integer (.finite u 0)) % 2 ^ 64) with
  | none =>
    exfalso
    obtain ⟨p, s, hp, hs, hu⟩ := h
    unfold World.Get_by_UID at hf
    rw [List.find?_eq_none] at hf
    have hn := hf p hp
    have hr := hint p s hp hs
    simp only [hs, decide_eq_true_eq] at hn
    exact hn ((index_key_matches u s.m_uid hr.1 hr.2).mpr hu)
  | some p =>
    unfold World.Get_by_UID at hf
    have hmem := List.mem_of_find?_eq_some hf
    have hsat := List.find?_some hf
    cases hs : w.deref p with
    | none => simp [hs] at hsat
    | some s =>
      have hr := hint p s hmem hs
      simp only [hs, decide_eq_true_eq] at hsat
      exact ⟨p, s, rfl, hmem, hs, (index_key_matches u s.m_uid hr.1 hr.2).mp hsat⟩

theorem index_eq (ext : Extern) (w : World) (cls : LuaValue) (u : Int) :
    Lua_Sprite___index ext w [cls, .number (.finite u 0)] =
      match w.Get_by_UID (wrapSigned 64 (lua_number2integer (.finite u 0)) % 2 ^ 64) with
      | none => (.ok [.nil], w)
      | some p_sprite => (.ok [.userdata p_sprite], w) := by
  simp [Lua_Sprite___index, luaL_checklong, luaL_checkinteger, arg, lua_tonumber, Except.map]

theorem index_key_of_int (u : Int) (h1 : INT_MIN ≤ u) (h2 : u ≤ INT_MAX) :
    wrapSigned 64 (lua_number2integer (.finite u 0)) % 2 ^ 64 = u % 2 ^ 64 := by
  unfold INT_MIN at h1
  unfold INT_MAX at h2
  have hr : -2 ^ 63 ≤ u ∧ u < 2 ^ 63 := by constructor <;> omega
  simp only [lua_number2integer, truncate_int, if_pos hr, wrapSigned]
  norm_num
  split <;> omega

/-- C7: in a state whose UIDs are values of `int`, for every integer u the
index handler `Sprite[u]` raises no error and leaves the state unchanged; it
returns nil when no live entity has the UID u, and when one has, a handle to
exactly the sprite `Get_by_UID` returns for u (as `unsigned long`), which is a
sprite of the manager with UID u. -/
theorem index_lookup (ext : Extern) (w : World) (cls : LuaValue) (u : Int)
    (hint : w.uids_are_int) :
    (¬ w.live_uid u → Lua_Sprite___index ext w [cls, .number (.finite u 0)] = (.ok [.nil], w)) ∧
    (w.live_uid u → ∃ p s, w.Get_by_UID (u % 2 ^ 64) = some p ∧
      p ∈ w.m_sprite_manager ∧ w.deref p = some s ∧ s.m_uid = u ∧
      Lua_Sprite___index ext w [cls, .number (.finite u 0)] = (.ok [.userdata p], w)) := by
  rw [index_eq]
  constructor
  · intro hfree
    rw [Get_by_UID_key_eq_none w u hint hfree]
  · intro hlive
    obtain ⟨p, s, hget, hmem, hs, hu⟩ := Get_by_UID_key_of_live w u hint hlive
    have hr := hint p s hmem hs
    rw [hu] at hr
    rw [index_key_of_int u hr.1 hr.2] at hget ⊢
    exact ⟨p, s, hget, hmem, hs, hu, by rw [hget]⟩

theorem sample_world_uids_are_int : sample_world.uids_are_int := by
  intro p s hp hs
  have hp0 : p = 0 := by simpa [sample_world] using hp
  subst hp0
  have hs0 : s = sample_sprite 7 := by
    have : sample_world.deref 0 = some (sample_sprite 7) := rfl
    rw [this] at hs
    exact (Option.some.inj hs).symm
  subst hs0
  decide

theorem index_lookup_witness :
    Lua_Sprite___index sample_ext sample_world [.table 0, .number (.finite 33 0)]
      = (.ok [.nil], sample_world) ∧
    ∃ p s, sample_world.deref p = some s ∧ s.m_uid = 7 ∧
      Lua_Sprite___index sample_ext sample_world [.table 0, .number (.finite 7 0)]
        = (.ok [.userdata p], sample_world) :=
  ⟨(index_lookup sample_ext sample_world (.table 0) 33 sample_world_uids_are_int).1
      (by intro h; have h2 := Is_UID_In_Use_of_live _ _ h; revert h2; decide),
   match (index_lookup sample_ext sample_world (.table 0) 7 sample_world_uids_are_int).2
      ⟨0, sample_sprite 7, by decide, rfl, rfl⟩ with
   | ⟨p, s, _, _, hs, hu, hr⟩ => ⟨p, s, hs, hu, hr⟩⟩

/-- A negative key finds the sprite with that UID: after an allocation with
the UID -3, `Sprite[-3]` returns a handle to the new sprite. -/
theorem index_finds_negative_uid :
    Lua_Sprite___index sample_ext
      (Lua_Sprite_Allocate sample_ext sample_world
        [.table 0, .nil, .nil, .nil, .number (.finite (-3) 0)]).2
      [.table 0, .number (.finite (-3) 0)]
    = (.ok [.userdata 1],
      (Lua_Sprite_Allocate sample_ext sample_world
        [.table 0, .nil, .nil, .nil, .number (.finite (-3) 0)]).2) :=
  rfl

theorem event_list_push_back_same (table : List (String × List Int)) (name : String) (ref : Int) :
    event_list (event_push_back table name ref) name = event_list table name ++ [ref] := by
  induction table with
  | nil => simp [event_push_back, event_list]
  | cons e rest ih =>
    unfold event_push_back
    by_cases h : e.1 = std_string name
    · simp [h, event_list]
    · have h2 : (e.1 == std_string name) = false := by simpa using h
      simp only [h2, Bool.false_eq_true, if_false]
      unfold event_list at ih ⊢
      simp only [List.find?_cons, h2]
      exact ih

theorem event_list_push_back_other (table : List (String × List Int)) (name other : String)
    (ref : Int) (hne : std_string other ≠ std_string name) :
    event_list (event_push_back table name ref) other = event_list table other := by
  induction table with
  | nil =>
    have h2 : (std_string name == std_string other) = false := by simpa using Ne.symm hne
    simp [event_push_back, event_list, h2]
  | cons e rest ih =>
    unfold event_push_back
    by_cases h : e.1 = std_string name
    · have h3 : (e.1 == std_string other) = false := by
        rw [h]; simpa using Ne.symm hne
      have h4 : (e.1 == std_string name) = true := by simpa using h
      simp only [h4, if_true]
      unfold event_list
      simp only [List.find?_cons, h3]
    · have h2 : (e.1 == std_string name) = false := by simpa using h
      simp only [h2, Bool.false_eq_true, if_false]
      unfold event_list at ih ⊢
      by_cases h4 : (e.1 == std_string other) = true
      · simp [List.find?_cons, h4]
      · have h5 : (e.1 == std_string other) = false := by simpa using h4
        simp only [List.find?_cons, h5]
        exact ih

theorem register_ok (ext : Extern) (w : World) (p : Nat) (s : cSprite) (name : String) (c : Nat)
    (hs : w.deref p = some s) :
    Lua_Sprite_Register ext w [.userdata p, .string name, .func c] =
      (.ok [], ({ w with refs := w.refs ++ [.func c] } : World).store p
        { s with m_event_table :=
            event_push_back s.m_event_table name ((w.refs.length + 1 : Nat) : Int) }) := by
  simp [Lua_Sprite_Register, check, arg, hs, luaL_checkstring, lua_tostring, lua_isfunction,
    luaL_ref]
theorem register_error_keeps_state (ext : Extern) (w : World) (args : List LuaValue)
    (e : LuaError) (h : (Lua_Sprite_Register ext w args).1 = .error e) :
    (Lua_Sprite_Register ext w args).2 = w := by
  unfold Lua_Sprite_Register at h ⊢
  cases hc : check w args 1 with
  | error e1 => rfl
  | ok ps =>
    obtain ⟨p_sprite, s⟩ := ps
    simp only [hc] at h ⊢
    cases hstr : luaL_checkstring ext args 2 with
    | error e2 => rfl
    | ok str =>
      simp only [hstr] at h ⊢
      by_cases hf : lua_isfunction (arg args 3) = true
      · simp only [hf, Bool.not_true, Bool.false_eq_true, if_false] at h
        cases h
      · have hf2 : lua_isfunction (arg args 3) = false := by simpa using hf
        simp only [hf2, Bool.not_false, if_true]

/-- C9: a call of `register` whose first argument is not a handle of an
allocated sprite fails with the invalid-receiver error; with a valid handle
and a string as event name, a third argument that is not a function makes it
fail with the "No function given." error; and whenever `register` fails the
whole state is as before the call: no event table has changed and the Lua
registry holds no new reference. -/
theorem register_failures (ext : Extern) (w : World) (args : List LuaValue) :
    ((∀ p, arg args 1 = .userdata p → w.deref p = none) →
      Lua_Sprite_Register ext w args = (.error .invalidReceiver, w)) ∧
    (∀ p s name, arg args 1 = .userdata p → w.deref p = some s →
      arg args 2 = .string name → lua_isfunction (arg args 3) = false →
      Lua_Sprite_Register ext w args = (.error .noFunction, w)) ∧
    (∀ e, (Lua_Sprite_Register ext w args).1 = .error e →
      (Lua_Sprite_Register ext w args).2 = w ∧
      (∀ p, (Lua_Sprite_Register ext w args).2.deref p = w.deref p) ∧
      (Lua_Sprite_Register ext w args).2.refs = w.refs) := by
  refine ⟨?_, ?_, ?_⟩
  · intro hinv
    have hc : check w args 1 = .error .invalidReceiver := by
      unfold check
      cases ha : arg args 1 with
      | userdata p => simp [hinv p ha]
      | _ => rfl
    simp [Lua_Sprite_Register, hc]
  · intro p s name h1 hs h2 h3
    simp [Lua_Sprite_Register, check, h1, hs, luaL_checkstring, h2, lua_tostring, h3]
  · intro e he
    have hw := register_error_keeps_state ext w args e he
    exact ⟨hw, fun p => by rw [hw], by rw [hw]⟩

theorem register_failures_witness :
    Lua_Sprite_Register sample_ext sample_world [.number (.finite 3 0), .string "touch", .func 1]
      = (.error .invalidReceiver, sample_world) ∧
    Lua_Sprite_Register sample_ext sample_world [.userdata 0, .string "touch", .string "f"]
      = (.error .noFunction, sample_world) :=
  ⟨(register_failures sample_ext sample_world
      [.number (.finite 3 0), .string "touch", .func 1]).1 (by intro p h; cases h),
   (register_failures sample_ext sample_world
      [.userdata 0, .string "touch", .string "f"]).2.1 0 (sample_sprite 7) "touch" rfl rfl rfl rfl⟩

theorem lua_gettable_register (p : Nat) :
    lua_gettable (.userdata p) "register" = some .Lua_Sprite_Register := by
  unfold lua_gettable
  have h : Sprite_Methods.find? (fun m => m.1 == "register")
      = some ("register", .Lua_Sprite_Register) := by decide
  simp only [h, Option.map_some']

theorem on_touch_unfold (ext : Extern) (depth : Nat) (w : World) (h f : LuaValue) :
    Lua_Sprite_on_touch ext depth w [h, f] =
      if lua_isuserdata h = true then
        if lua_isfunction f = true then
          match Lua_Sprite_Register ext w [h, .string "touch", f] with
          | (.ok _, w1) => (.ok [], w1)
          | (.error e, w1) => (.error e, w1)
        else (.error .noFunction, w)
      else (.error .noReceiver, w) := by
  have ht : std_string "touch" = "touch" := by decide
  cases h <;> cases f <;>
    simp [Lua_Sprite_on_touch, Forward_To_Sprite_Register, arg, lua_isuserdata, lua_isfunction,
      lua_gettable_register, lua_call, ht]

theorem register_not_userdata (ext : Extern) (w : World) (h : LuaValue) (rest : List LuaValue)
    (hu : lua_isuserdata h = false) :
    Lua_Sprite_Register ext w (h :: rest) = (.error .invalidReceiver, w) := by
  cases h <;> simp_all [Lua_Sprite_Register, check, arg, lua_isuserdata]

theorem register_not_function (ext : Extern) (w : World) (h f : LuaValue)
    (hf : lua_isfunction f = false) :
    ∃ e, Lua_Sprite_Register ext w [h, .string "touch", f] = (.error e, w) := by
  unfold Lua_Sprite_Register
  cases hc : check w [h, .string "touch", f] 1 with
  | error e1 => exact ⟨e1, rfl⟩
  | ok ps =>
    refine ⟨.noFunction, ?_⟩
    simp [luaL_checkstring, arg, lua_tostring, hf]

theorem register_outcome (ext : Extern) (w : World) (args : List LuaValue) :
    (∃ e, Lua_Sprite_Register ext w args = (.error e, w)) ∨
    (∃ w1, Lua_Sprite_Register ext w args = (.ok [], w1)) := by
  unfold Lua_Sprite_Register
  cases hc : check w args 1 with
  | error e1 => exact Or.inl ⟨e1, rfl⟩
  | ok ps =>
    cases hstr : luaL_checkstring ext args 2 with
    | error e2 => exact Or.inl ⟨e2, rfl⟩
    | ok str =>
      by_cases hf : lua_isfunction (arg args 3) = true
      · right
        simp [hf]
      · left
        have hf2 : lua_isfunction (arg args 3) = false := by simpa using hf
        exact ⟨.noFunction, by simp [hf2]⟩

theorem on_touch_success (ext : Extern) (depth : Nat) (w : World) (h f : LuaValue)
    (vals : List LuaValue) (hok : (Lua_Sprite_on_touch ext depth w [h, f]).1 = .ok vals) :
    ∃ p s c, h = .userdata p ∧ f = .func c ∧ w.deref p = some s ∧
      (Lua_Sprite_on_touch ext depth w [h, f]).2 =
        ({ w with refs := w.refs ++ [.func c] } : World).store p
          { s with m_event_table :=
              event_push_back s.m_event_table "touch" ((w.refs.length + 1 : Nat) : Int) } := by
  rw [on_touch_unfold] at hok ⊢
  by_cases hu : lua_isuserdata h = true
  · rw [if_pos hu] at hok ⊢
    by_cases hf : lua_isfunction f = true
    · rw [if_pos hf] at hok ⊢
      cases h <;> simp [lua_isuserdata] at hu
      cases f <;> simp [lua_isfunction] at hf
      rename_i p c
      cases hs : w.deref p with
      | none =>
        simp [Lua_Sprite_Register, check, arg, hs] at hok
      | some s =>
        rw [register_ok ext w p s "touch" c hs]
        exact ⟨p, s, c, rfl, rfl, hs, rfl⟩
    · rw [if_neg hf] at hok
      cases hok
  · rw [if_neg hu] at hok
    cases hok

/-- C8: for every receiver h and second argument f, `on_touch(h, f)` fails
exactly when `register(h, "touch", f)` fails, succeeds with the same (empty)
result when it succeeds, and leaves the same state in both cases; on success h
is a handle of a sprite and f a function, and afterwards the sprite, read back
through the handle, has as list for "touch" its former list followed by one
new reference, which stands for f in the Lua registry; its lists for all other
names and its other members are as before, and so are all other sprites and
the sprite manager; the Lua registry has gained the reference to f only. -/
theorem on_touch_forwards_to_register (ext : Extern) (depth : Nat) (w : World) (h f : LuaValue) :
    ((∃ e, (Lua_Sprite_on_touch ext depth w [h, f]).1 = .error e) ↔
      (∃ e, (Lua_Sprite_Register ext w [h, .string "touch", f]).1 = .error e)) ∧
    (∀ vals, (Lua_Sprite_on_touch ext depth w [h, f]).1 = .ok vals ↔
      (Lua_Sprite_Register ext w [h, .string "touch", f]).1 = .ok vals) ∧
    (Lua_Sprite_on_touch ext depth w [h, f]).2
      = (Lua_Sprite_Register ext w [h, .string "touch", f]).2 ∧
    (∀ vals, (Lua_Sprite_on_touch ext depth w [h, f]).1 = .ok vals →
      ∃ p s s1, h = .userdata p ∧ lua_isfunction f = true ∧ w.deref p = some s ∧
        (Lua_Sprite_on_touch ext depth w [h, f]).2.deref p = some s1 ∧
        event_list s1.m_event_table "touch"
          = event_list s.m_event_table "touch" ++ [((w.refs.length + 1 : Nat) : Int)] ∧
        lua_rawgeti (Lua_Sprite_on_touch ext depth w [h, f]).2 ((w.refs.length + 1 : Nat) : Int)
          = f ∧
        (∀ other, std_string other ≠ "touch" →
          event_list s1.m_event_table other = event_list s.m_event_table other) ∧
        s1 = { s with m_event_table := s1.m_event_table } ∧
        (∀ q, q ≠ p → (Lua_Sprite_on_touch ext depth w [h, f]).2.deref q = w.deref q) ∧
        (Lua_Sprite_on_touch ext depth w [h, f]).2.refs = w.refs ++ [f] ∧
        (Lua_Sprite_on_touch ext depth w [h, f]).2.m_sprite_manager = w.m_sprite_manager) := by
  refine ⟨?_, ?_, ?_, ?_⟩
  · rw [on_touch_unfold]
    by_cases hu : lua_isuserdata h = true
    · rw [if_pos hu]
      by_cases hf : lua_isfunction f = true
      · rw [if_pos hf]
        rcases register_outcome ext w [h, .string "touch", f] with ⟨e, he⟩ | ⟨w1, hw1⟩
        · rw [he]
        · rw [hw1]
      · have hf2 : lua_isfunction f = false := by simpa using hf
        rw [if_neg hf]
        obtain ⟨e, he⟩ := register_not_function ext w h f hf2
        rw [he]; simp
    · have hu2 : lua_isuserdata h = false := by simpa using hu
      rw [if_neg hu, register_not_userdata ext w h _ hu2]; simp
  · rw [on_touch_unfold]
    by_cases hu : lua_isuserdata h = true
    · rw [if_pos hu]
      by_cases hf : lua_isfunction f = true
      · rw [if_pos hf]
        rcases register_outcome ext w [h, .string "touch", f] with ⟨e, he⟩ | ⟨w1, hw1⟩
        · rw [he]; simp
        · rw [hw1]; simp
      · have hf2 : lua_isfunction f = false := by simpa using hf
        rw [if_neg hf]
        obtain ⟨e, he⟩ := register_not_function ext w h f hf2
        rw [he]; simp
    · have hu2 : lua_isuserdata h = false := by simpa using hu
      rw [if_neg hu, register_not_userdata ext w h _ hu2]; simp
  · rw [on_touch_unfold]
    by_cases hu : lua_isuserdata h = true
    · rw [if_pos hu]
      by_cases hf : lua_isfunction f = true
      · rw [if_pos hf]
        rcases register_outcome ext w [h, .string "touch", f] with ⟨e, he⟩ | ⟨w1, hw1⟩
        · simp only [he]
        · simp only [hw1]
      · have hf2 : lua_isfunction f = false := by simpa using hf
        rw [if_neg hf]
        obtain ⟨e, he⟩ := register_not_function ext w h f hf2
        rw [he]
    · have hu2 : lua_isuserdata h = false := by simpa using hu
      rw [if_neg hu, register_not_userdata ext w h _ hu2]
  · intro vals hok
    obtain ⟨p, s, c, hh, hf, hs, hw⟩ := on_touch_success ext depth w h f vals hok
    have hs0 : ({ w with refs := w.refs ++ [.func c] } : World).deref p = some s := hs
    have ht : std_string "touch" = "touch" := by decide
    rw [hw]
    refine ⟨p, s, _, hh, by rw [hf]; rfl, hs, deref_store_same _ p s _ hs0, ?_, ?_, ?_, rfl, ?_, ?_, rfl⟩
    · exact event_list_push_back_same _ _ _
    · subst hf
      have hpos : (1 : Int) ≤ ((w.refs.length + 1 : Nat) : Int) := by omega
      have hidx : (((w.refs.length + 1 : Nat) : Int)).toNat - 1 = w.refs.length := by omega
      simp [lua_rawgeti, World.store, hpos, hidx]
    · intro other hne
      exact event_list_push_back_other _ "touch" other _ (by rw [ht]; exact hne)
    · intro q hq
      rw [deref_store_other _ p q _ hq]
      rfl
    · subst hf
      rfl

end SMC
